import Mathlib

/-!
Verification development for the fastfill-go document rendering pipeline
(`internal/handlers/pdf.go` and `internal/services/ocr.go`).

The Go code is shallowly embedded: Go maps (`map[string]interface{}`,
`map[string]string`-shaped data) are modelled as association lists with
unique keys (a Go map cannot hold duplicate keys), Go byte slices as
`List Nat` (each entry a byte value), fallible Go functions returning
`(T, error)` as `Except String T`, and the external collaborators
(upload service, headless browser) as explicit function parameters.
Strings are modelled at character granularity; the repository only
manipulates ASCII in the positions the theorems touch, where Go's
byte-indexing and Lean's character indexing agree.
-/

set_option maxRecDepth 10000

namespace FastFill

/-! ### Go string primitives used by the handlers -/

/-- Character-list prefix test, mirroring Go's `strings.HasPrefix` on byte slices. -/
def charsPrefixOf : List Char → List Char → Bool
  | [], _ => true
  | _ :: _, [] => false
  | a :: as, b :: bs => a == b && charsPrefixOf as bs

/-- Character-list infix test. -/
def charsInfixOf (pat : List Char) : List Char → Bool
  | [] => charsPrefixOf pat []
  | b :: bs => charsPrefixOf pat (b :: bs) || charsInfixOf pat bs

/-- Go `strings.Contains s sub`. -/
def goContains (s sub : String) : Bool :=
  charsInfixOf sub.toList s.toList

/-- Go `strings.HasPrefix`. -/
def goHasPrefix (s pre : String) : Bool :=
  charsPrefixOf pre.toList s.toList

/-- Go `strings.HasSuffix`. -/
def goHasSuffix (s suf : String) : Bool :=
  charsPrefixOf suf.toList.reverse s.toList.reverse

/-- Go `strings.TrimPrefix`: drop `pre` when it is a prefix, else return `s` unchanged. -/
def goTrimPrefix (s pre : String) : String :=
  if goHasPrefix s pre then String.mk (s.toList.drop pre.toList.length) else s

/-- Go `strings.TrimSuffix`: drop `suf` when it is a suffix, else return `s` unchanged. -/
def goTrimSuffix (s suf : String) : String :=
  if goHasSuffix s suf then String.mk (s.toList.take (s.toList.length - suf.toList.length))
  else s

/-- Split a character list at every occurrence of a separator character. -/
def charsSplitOn (sep : Char) : List Char → List (List Char)
  | [] => [[]]
  | c :: rest =>
    if c = sep then [] :: charsSplitOn sep rest
    else
      match charsSplitOn sep rest with
      | [] => [[c]]
      | h :: t => (c :: h) :: t

/-- Go `strings.Split(s, "/")`. -/
def goSplitSlash (s : String) : List String :=
  (charsSplitOn '/' s.toList).map String.mk

/-- Go `len(s)` (byte length; the strings sliced by the handler are ASCII). -/
def goLen (s : String) : Nat := s.toList.length

/-- Go `s[:n]` after a successful bounds check. -/
def goTake (s : String) (n : Nat) : String := String.mk (s.toList.take n)

/-- Go `strconv.Atoi`: optional sign followed by at least one decimal digit.
Overflow (irrelevant at the sizes modelled) is not modelled. -/
def goAtoi (s : String) : Option Int :=
  let cs := s.toList
  let signed : Bool × List Char :=
    match cs with
    | c :: rest => if c = '-' then (true, rest) else if c = '+' then (false, rest) else (false, cs)
    | [] => (false, [])
  match signed with
  | (neg, digits) =>
    if digits.isEmpty then none
    else if digits.all Char.isDigit then
      let n : Nat := digits.foldl (fun acc d => acc * 10 + (d.toNat - 48)) 0
      some (if neg then -(n : Int) else (n : Int))
    else none

/-! ### base64 (Go `encoding/base64` StdEncoding) -/

/-- The standard base64 alphabet. -/
def base64Alphabet : List Char :=
  "ABCDEFGHIJKLMNOPQRSTUVWXYZabcdefghijklmnopqrstuvwxyz0123456789+/".toList

/-- Index into the base64 alphabet. -/
def base64Digit (n : Nat) : Char := base64Alphabet.getD n (Char.ofNat 65)

/-- Encode three-byte groups to four base64 characters, padding with `=`.
The arithmetic mirrors the bit packing of `base64.StdEncoding.EncodeToString`
on byte values (each input entry is a byte, `< 256`). -/
def base64Quads : List Nat → List Char
  | [] => []
  | [a] =>
    [base64Digit (a / 4 % 64), base64Digit (a % 4 * 16), Char.ofNat 61, Char.ofNat 61]
  | [a, b] =>
    [base64Digit (a / 4 % 64), base64Digit (a % 4 * 16 + b / 16 % 16),
     base64Digit (b % 16 * 4), Char.ofNat 61]
  | a :: b :: c :: rest =>
    base64Digit (a / 4 % 64) :: base64Digit (a % 4 * 16 + b / 16 % 16) ::
    base64Digit (b % 16 * 4 + c / 64 % 4) :: base64Digit (c % 64) :: base64Quads rest

/-- Go `base64.StdEncoding.EncodeToString`. -/
def base64EncodeToString (bs : List Nat) : String := String.mk (base64Quads bs)

/-! ### Data model (`internal/models/gorm/template.go`, as consumed by `pdf.go`) -/

/-- One positioned field of a template (`gormmodels.Field`), restricted to the
attributes the rendering pipeline reads. -/
structure Field where
  name : String
  ftype : String
  required : Bool
  dataKey : String
  fontSize : Int
  pageIndex : Int
  positionTop : Int
  positionLeft : Int
  positionWidth : Int
  positionHeight : Int
  fontWeight : String
  fontStyle : String
  textDecoration : String
  textColor : String
  fontFamily : String
deriving DecidableEq

/-- One stored page-background asset (`gormmodels.SVGFile`), restricted to the
attributes the lookup logic reads. `createdAt` is an abstract timestamp
(larger = more recent); the list order of a database stands for primary-key
(insertion) order. -/
structure SVGFile where
  templateID : String
  filename : String
  originalName : String
  pageIndex : Int
  createdAt : Nat
deriving DecidableEq

/-- A template (`gormmodels.Template`) as consumed by the PDF handler. -/
structure Template where
  id : String
  displayName : String
  svgBackground : String
  fields : List Field
  svgFiles : List SVGFile
deriving DecidableEq

/-- A JSON primitive, as deep as the formatting-override code inspects values:
the handler type-asserts an override entry to a string map and each attribute
to a string, so one level of primitive suffices to model every behaviour
(absent, string, and malformed non-string entries). -/
inductive GoPrim where
  | pstr (s : String)
  | pint (n : Int)
  | pbool (b : Bool)
  | pnull
deriving DecidableEq

/-- A value of a `map[string]interface{}` formatting map: either a formatting
attribute bag (`map[string]interface{}` of primitives) or a malformed
non-map value. -/
inductive GoVal where
  | vstr (s : String)
  | vint (n : Int)
  | vbool (b : Bool)
  | vnull
  | vmap (entries : List (String × GoPrim))
deriving DecidableEq

/-- A stored form submission (`gormmodels.FormSubmission`), restricted to what
`GeneratePDFFromSubmission` reads. Value maps are modelled with string
values (the shape the claims under verification exercise). -/
structure FormSubmission where
  id : String
  templateID : String
  formData : List (String × String)
  formattingData : Option (List (String × GoVal))
  htmlData : List (String × String)
deriving DecidableEq

/-! ### Field-Formatting Resolver (`pdf.go` lines 334-356 and 469-491; the two
occurrences are textually identical) -/

/-- One `if attr, ok := formatting[key].(string); ok && attr != ""` step:
replace `cur` only when the bag holds a non-empty string under `key`. -/
def overrideAttr (formatting : List (String × GoPrim)) (key cur : String) : String :=
  match List.lookup key formatting with
  | some (GoPrim.pstr s) => if s = "" then cur else s
  | _ => cur

/-- Apply the formatting overrides of `formattingData` to one field.
`none` models a nil Go map (the `if formattingData != nil` guard); an entry
that is not an attribute bag fails the `.(map[string]interface{})` type
assertion and is ignored. Pure over a copy: the Go code mutates only the
`fieldsWithFormatting` copy, never `tmplData.Fields`. -/
def applyOverrides (formattingData : Option (List (String × GoVal))) (field : Field) : Field :=
  match formattingData with
  | none => field
  | some fd =>
    match List.lookup field.dataKey fd with
    | some (GoVal.vmap formatting) =>
      { field with
        fontWeight := overrideAttr formatting "fontWeight" field.fontWeight
        fontStyle := overrideAttr formatting "fontStyle" field.fontStyle
        textDecoration := overrideAttr formatting "textDecoration" field.textDecoration
        textColor := overrideAttr formatting "textColor" field.textColor
        fontFamily := overrideAttr formatting "fontFamily" field.fontFamily }
    | _ => field

/-! ### Value merge (`pdf.go` lines 493-505) -/

/-- Go map assignment `m[k] = v`: overwrite the entry at `k`, or append it. -/
def mapSet (m : List (String × String)) (k v : String) : List (String × String) :=
  match m with
  | [] => [(k, v)]
  | (k', v') :: rest => if k' = k then (k, v) :: rest else (k', v') :: mapSet rest k v

/-- Merge HTML-flavoured values into the plain values: start from a copy of
`data`, then for every htmlData entry whose value is non-empty, overwrite.
A nil htmlData map is the empty list (iterating a nil Go map is a no-op). -/
def mergeData (data htmlData : List (String × String)) : List (String × String) :=
  htmlData.foldl (fun acc kv => if kv.2 ≠ "" then mapSet acc kv.1 kv.2 else acc) data

/-! ### Page Grouper (`pdf.go` lines 413-446) -/

/-- `fieldsByPage[pageIndex]`: the fields appended under one page index, in
the template's stored field order. -/
def fieldsAt (t : Template) (pageIndex : Int) : List Field :=
  t.fields.filter (fun f => f.pageIndex == pageIndex)

/-- `svgFilesByPage[pageIndex]`: building the Go map assigns in list order,
so the last SVG file with a given page index wins. -/
def svgAt (t : Template) (pageIndex : Int) : Option SVGFile :=
  (t.svgFiles.filter (fun s => s.pageIndex == pageIndex)).getLast?

/-- The `maxPage` accumulation pattern: `if x > acc { acc = x }` over a list.
The Go code ranges over the keys of the grouping maps; folding over the
records themselves computes the same maximum. -/
def foldMax (f : α → Int) (l : List α) (init : Int) : Int :=
  l.foldl (fun acc x => if f x > acc then f x else acc) init

/-- `maxPage`, starting from 0, raised over the field pages then the SVG pages. -/
def maxPage (t : Template) : Int :=
  foldMax (fun s => s.pageIndex) t.svgFiles (foldMax (fun f => f.pageIndex) t.fields 0)

/-- The loop range `for pageIndex := 0; pageIndex <= maxPage; pageIndex++`. -/
def pageLoop (t : Template) : List Int :=
  (List.range ((maxPage t).toNat + 1)).map Int.ofNat

/-- The page indices that survive the
`if !hasSVG && len(fields) == 0 { continue }` skip. -/
def renderedPages (t : Template) : List Int :=
  (pageLoop t).filter (fun i => (svgAt t i).isSome || !(fieldsAt t i).isEmpty)

/-! ### HTML Compositor, multi-page (`pdf.go` lines 449-601) -/

/-- The upload service's `GetSVGContent(templateID, svgID)` collaborator:
either the raw bytes of the stored background or an error. -/
def SvgService := String → String → Except String (List Nat)

/-- `generatePageHTML` (`pdf.go` lines 573-602): one page fragment. Each field
emits an absolutely positioned block whose style carries only the position
and a literal `font-size: 12pt`, and whose text is the looked-up value
interpolated verbatim by `fmt.Sprintf("%v", value)`. -/
def generatePageHTML (svgDataURI : String) (fields : List Field)
    (data : List (String × String)) : String :=
  let fieldsHTML := String.join (fields.map (fun field =>
    let value := (List.lookup field.dataKey data).getD ""
    "\n        <div class=\"field\" style=\"\n            top: " ++
      toString field.positionTop ++ "px;\n            left: " ++
      toString field.positionLeft ++ "px;\n            width: " ++
      toString field.positionWidth ++ "px;\n            height: " ++
      toString field.positionHeight ++
      "px;\n            font-size: 12pt;\n        \">\n            <div class=\"field-text\">" ++
      value ++ "</div>\n        </div>"))
  let backgroundStyle :=
    if svgDataURI ≠ "" then "background-image: url(\x27" ++ svgDataURI ++ "\x27);" else ""
  "    <div class=\"page\" style=\"" ++ backgroundStyle ++ "\">\n" ++ fieldsHTML ++ "\n    </div>"

/-- The loop body of `generateMultiPageHTML` for one page index: resolve the
background (a failed fetch is logged as a warning and leaves the data URI
empty), apply formatting overrides to the page's fields, merge the value
maps, and compose the page fragment. -/
def renderPage (svc : SvgService) (t : Template)
    (data : List (String × String)) (formattingData : Option (List (String × GoVal)))
    (htmlData : List (String × String)) (pageIndex : Int) : String :=
  let hasSVG := (svgAt t pageIndex).isSome
  let fields := fieldsAt t pageIndex
  let svgDataURI :=
    if hasSVG then
      match svc t.id ("page_" ++ toString pageIndex) with
      | Except.error _ => ""
      | Except.ok content => "data:image/svg+xml;base64," ++ base64EncodeToString content
    else ""
  let fieldsWithFormatting := fields.map (applyOverrides formattingData)
  let mergedData := mergeData data htmlData
  generatePageHTML svgDataURI fieldsWithFormatting mergedData

/-- The fixed document shell of `generateMultiPageHTML` (`pdf.go` lines
517-567), with the joined page fragments spliced where the `%s` verb sat
(`%%` renders as a single percent sign). -/
def multiPageWrapper (pagesHTML : String) : String :=
  "<!DOCTYPE html>\n<html>\n<head>\n    <meta charset=\"UTF-8\">\n    <style>\n        @page \x7b\n            margin: 0;\n            size: A4;\n        \x7d\n        \n        body \x7b\n            margin: 0;\n            padding: 0;\n            font-family: \x27Times New Roman\x27, serif;\n        \x7d\n        \n        .page \x7b\n            position: relative;\n            width: 794px;\n            height: 1123px;\n            background-size: cover;\n            background-repeat: no-repeat;\n            background-position: center;\n            page-break-after: always;\n        \x7d\n        \n        .page:last-child \x7b\n            page-break-after: auto;\n        \x7d\n        \n        .field \x7b\n            position: absolute;\n            display: flex;\n            align-items: flex-start;\n            word-wrap: break-word;\n            word-break: break-word;\n            white-space: pre-wrap;\n            overflow: hidden;\n            padding-top: 2px;\n        \x7d\n        \n        .field-text \x7b\n            width: 100%;\n            text-align: left;\n        \x7d\n    </style>\n</head>\n<body>\n" ++
  pagesHTML ++ "\n</body>\n</html>"

/-- `generateMultiPageHTML` (`pdf.go` lines 410-571). -/
def generateMultiPageHTML (svc : SvgService) (t : Template)
    (data : List (String × String)) (formattingData : Option (List (String × GoVal)))
    (htmlData : List (String × String)) : Except String String :=
  let htmlPages := (renderedPages t).map (renderPage svc t data formattingData htmlData)
  if htmlPages.isEmpty then Except.error "no pages with SVG files or fields found"
  else Except.ok (multiPageWrapper (String.intercalate "\n" htmlPages))

/-! ### Background Resolver (`pdf.go` `convertToDataURI`, lines 648-709) -/

/-- `convertToDataURI`: classify the background reference and fetch bytes via
the upload service, wrapping them into a base64 data URI. -/
def convertToDataURI (svc : SvgService) (url : String) : Except String String :=
  let fetch : String → String → Except String String := fun templateID svgID =>
    match svc templateID svgID with
    | Except.error e => Except.error ("failed to get SVG content: " ++ e)
    | Except.ok content =>
      Except.ok ("data:image/svg+xml;base64," ++ base64EncodeToString content)
  if url = "" then Except.ok ""
  else if goHasPrefix url "data:" then Except.ok url
  else if goContains url "/api/files/svg/" then
    let parts := goSplitSlash (goTrimPrefix url "/")
    if parts.length ≥ 6 ∧ parts.getD 0 "" = "api" ∧ parts.getD 1 "" = "files" ∧
        parts.getD 2 "" = "svg" ∧ parts.getD 4 "" = "page" then
      fetch (parts.getD 3 "") ("page_" ++ parts.getD 5 "")
    else if parts.length ≥ 4 ∧ parts.getD 0 "" = "api" ∧ parts.getD 1 "" = "files" ∧
        parts.getD 2 "" = "svg" then
      fetch (parts.getD 3 "") ""
    else Except.error ("invalid SVG URL format: " ++ url)
  else if goContains url "templates/" then
    let parts := goSplitSlash (goTrimPrefix url "/")
    if parts.length ≥ 3 ∧ parts.getD 0 "" = "templates" then
      fetch (parts.getD 1 "") (goTrimSuffix (parts.getD 2 "") ".svg")
    else Except.error ("invalid SVG URL format: " ++ url)
  else Except.error ("unsupported SVG URL format: " ++ url)

/-! ### HTML Compositor, legacy single-page (`pdf.go` lines 253-407)

The legacy path renders a fixed `html/template` source. Template execution is
embedded directly: literal text is emitted verbatim; `{{...}}` actions are
substituted. A pipeline in HTML text context passes through the package's
HTML escaper, except values of type `template.HTML` (the converted
`HtmlData` entries), which pass through unescaped. Values interpolated
inside the `style` attribute pass the CSS value filter, which forwards the
numeric and plain keyword/color/font values occurring here unchanged. -/

/-- The replacements of `html/template`'s HTML escaper (NUL replacement is
not modelled; no claim involves NUL bytes). -/
def htmlEscape (s : String) : String :=
  String.join (s.toList.map (fun c =>
    if c = '<' then "&lt;"
    else if c = '>' then "&gt;"
    else if c = '&' then "&amp;"
    else if c = '\"' then "&#34;"
    else if c = Char.ofNat 39 then "&#39;"
    else String.singleton c))

/-- The text node
`{{if index $.HtmlData .DataKey}}{{index $.HtmlData .DataKey}}{{else}}{{index $.Data .DataKey}}{{end}}`:
a present, non-empty `template.HTML` value is truthy and prints raw; otherwise
the plain value prints through the HTML escaper. A data key missing from both
maps yields the zero `interface{}` value, which `fmt` prints as `<nil>` and
the escaper then escapes; no claim depends on that branch. -/
def legacyFieldValue (data htmlData : List (String × String)) (key : String) : String :=
  let escapedPlain :=
    match List.lookup key data with
    | some s => htmlEscape s
    | none => "&lt;nil&gt;"
  match List.lookup key htmlData with
  | some v => if v ≠ "" then v else escapedPlain
  | none => escapedPlain

/-- One iteration of the `{{range .Fields}}` body (`pdf.go` lines 300-315),
including the style defaults chosen by the `{{if}}` truthiness tests
(a zero `FontSize` and empty style strings fall back to the defaults). -/
def legacyFieldBlock (data htmlData : List (String × String)) (f : Field) : String :=
  "\n        <div class=\"field\" style=\"\n            top: " ++
    toString f.positionTop ++ "px;\n            left: " ++
    toString f.positionLeft ++ "px;\n            width: " ++
    toString f.positionWidth ++ "px;\n            height: " ++
    toString f.positionHeight ++ "px;\n            font-size: " ++
    (if f.fontSize ≠ 0 then toString f.fontSize ++ "pt" else "12pt") ++
    ";\n            font-weight: " ++
    (if f.fontWeight ≠ "" then f.fontWeight else "normal") ++
    ";\n            font-style: " ++
    (if f.fontStyle ≠ "" then f.fontStyle else "normal") ++
    ";\n            text-decoration: " ++
    (if f.textDecoration ≠ "" then f.textDecoration else "none") ++
    ";\n            color: " ++
    (if f.textColor ≠ "" then f.textColor else "#000000") ++
    ";\n            font-family: " ++
    (if f.fontFamily ≠ "" then "\x27" ++ f.fontFamily ++ "\x27, serif"
     else "\x27Times New Roman\x27, serif") ++
    ";\n        \">\n            <div class=\"field-text\">" ++
    legacyFieldValue data htmlData f.dataKey ++ "</div>\n        </div>\n        "

/-- The executed legacy document template (`pdf.go` lines 253-318): header up
to the `{{range .Fields}}` action, one block per field, then the footer.
`SVGBackground` is a `template.URL` spliced into the CSS `url(...)`. -/
def legacyDocumentHTML (svgDataURI : String) (fields : List Field)
    (data htmlData : List (String × String)) : String :=
  "\n<!DOCTYPE html>\n<html>\n<head>\n    <meta charset=\"UTF-8\">\n    <style>\n        @page \x7b\n            margin: 0;\n            size: A4;\n        \x7d\n        \n        body \x7b\n            margin: 0;\n            padding: 0;\n            font-family: \x27Times New Roman\x27, serif;\n            position: relative;\n        \x7d\n        \n        .document-container \x7b\n            position: relative;\n            width: 794px;\n            height: 1123px;\n            background-image: url(\x27" ++
  svgDataURI ++
  "\x27);\n            background-size: cover;\n            background-repeat: no-repeat;\n            background-position: center;\n        \x7d\n        \n        .field \x7b\n            position: absolute;\n            display: flex;\n            align-items: flex-start;\n            word-wrap: break-word;\n            word-break: break-word;\n            white-space: pre-wrap;\n            overflow: hidden;\n            padding-top: 2px;\n        \x7d\n        \n        .field-text \x7b\n            width: 100%;\n            text-align: left;\n        \x7d\n    </style>\n</head>\n<body>\n    <div class=\"document-container\">\n        " ++
  String.join (fields.map (legacyFieldBlock data htmlData)) ++
  "\n    </div>\n</body>\n</html>"

/-- `generateHTML` (`pdf.go` lines 236-408): multi-page when the template has
SVG files, otherwise the legacy single-page path, whose background
resolution failure is fatal. On the legacy path every `HtmlData` entry is a
string, so the `template.HTML` conversion keeps the map unchanged. -/
def generateHTML (svc : SvgService) (t : Template)
    (data : List (String × String)) (formattingData : Option (List (String × GoVal)))
    (htmlData : List (String × String)) : Except String String :=
  if t.svgFiles.length > 0 then
    generateMultiPageHTML svc t data formattingData htmlData
  else
    match convertToDataURI svc t.svgBackground with
    | Except.error e => Except.error ("failed to convert SVG to data URI: " ++ e)
    | Except.ok svgDataURI =>
      let fieldsWithFormatting := t.fields.map (applyOverrides formattingData)
      Except.ok (legacyDocumentHTML svgDataURI fieldsWithFormatting data htmlData)

/-! ### Asset lookup (`internal/services/ocr.go`, `UploadService`)

The `svg_files` table is modelled as a list of `SVGFile` records in
primary-key (insertion) order. `First` without ordering takes the first
match in that order; `Order("created_at DESC").First` takes the match with
the greatest `createdAt` (tie order is database-dependent; the earliest
inserted maximum is chosen, and no claim depends on ties). The final
`fetchSVGContent` network fetch of the chosen record's bytes is abstracted
away: the functions return the chosen record. -/

/-- `Order("created_at DESC").First`: the most recently created record. -/
def mostRecent (rs : List SVGFile) : Option SVGFile :=
  rs.foldl (fun acc r =>
    match acc with
    | none => some r
    | some best => if r.createdAt > best.createdAt then some r else acc) none

/-- `GetSVGFile` (`ocr.go` lines 418-430): the template's most recently
created SVG file, or `none` when the template has no records. -/
def GetSVGFile (db : List SVGFile) (templateID : String) : Option SVGFile :=
  mostRecent (db.filter (fun r => r.templateID == templateID))

/-- `GetSVGContent` (`ocr.go` lines 518-555): a parseable `page_N` identifier
is tried first against that page's record; a non-page identifier is matched
as a substring of the stored filenames; any miss falls back to the
template's most recently created record, and only a template with no
records at all yields the not-found error. -/
def GetSVGContent (db : List SVGFile) (templateID svgID : String) :
    Except String SVGFile :=
  let pageResult : Option SVGFile :=
    if goHasPrefix svgID "page_" then
      match goAtoi (goTrimPrefix svgID "page_") with
      | some pageIndex =>
        (db.filter (fun r => r.templateID == templateID && r.pageIndex == pageIndex)).head?
      | none => none
    else none
  match pageResult with
  | some r => Except.ok r
  | none =>
    let byName : Option SVGFile :=
      if svgID ≠ "" ∧ goHasPrefix svgID "page_" = false then
        mostRecent (db.filter (fun r =>
          r.templateID == templateID &&
            (goContains r.filename svgID || goContains r.originalName svgID)))
      else none
    match byName with
    | some r => Except.ok r
    | none =>
      match GetSVGFile db templateID with
      | some r => Except.ok r
      | none => Except.error ("SVG file not found for template " ++ templateID)

/-! ### `GeneratePDFFromSubmission` (`pdf.go` lines 193-234) -/

/-- The observable outcome of the submission-PDF HTTP handler. A Go runtime
panic (here: a string slice out of bounds) aborts the handler before any
response is written. -/
inductive HTTPOutcome where
  | json (status : Nat) (message : String)
  | panicked
  | pdf (filename : String) (content : List Nat)
deriving DecidableEq

/-- `GeneratePDFFromSubmission`: fetch the submission and its template,
render HTML and PDF, then build the download filename with the unguarded
`submissionID[:8]`, which panics when the ID is shorter than 8 bytes. The
stores and the headless browser are explicit collaborators. -/
def GeneratePDFFromSubmission
    (getSubmission : String → Except String (Option FormSubmission))
    (getTemplate : String → Except String (Option Template))
    (svc : SvgService) (htmlToPDF : String → Except String (List Nat))
    (submissionID : String) : HTTPOutcome :=
  match getSubmission submissionID with
  | Except.error _ => HTTPOutcome.json 500 "Failed to fetch form submission"
  | Except.ok none => HTTPOutcome.json 404 "Form submission not found"
  | Except.ok (some submission) =>
    match getTemplate submission.templateID with
    | Except.error _ => HTTPOutcome.json 500 "Failed to fetch template"
    | Except.ok none => HTTPOutcome.json 404 "Template not found"
    | Except.ok (some t) =>
      match generateHTML svc t submission.formData submission.formattingData
          submission.htmlData with
      | Except.error _ => HTTPOutcome.json 500 "Failed to generate HTML"
      | Except.ok htmlContent =>
        match htmlToPDF htmlContent with
        | Except.error _ => HTTPOutcome.json 500 "Failed to generate PDF"
        | Except.ok pdfBytes =>
          if goLen submissionID < 8 then HTTPOutcome.panicked
          else HTTPOutcome.pdf
            (t.displayName ++ "_" ++ goTake submissionID 8 ++ ".pdf") pdfBytes

/-! ### Concrete fixtures for closed instances -/

/-- A plain text field bound to data key `k` on page `pg`, at position
(10, 10, 100, 20), with no stored formatting. -/
def sampleField (k : String) (pg : Int) : Field :=
  { name := "Field", ftype := "text", required := false, dataKey := k, fontSize := 12,
    pageIndex := pg, positionTop := 10, positionLeft := 10, positionWidth := 100,
    positionHeight := 20, fontWeight := "", fontStyle := "", textDecoration := "",
    textColor := "", fontFamily := "" }

/-- A stored background asset of template `T1` for page `pg`, created at `ts`. -/
def sampleSVGFile (pg : Int) (ts : Nat) : SVGFile :=
  { templateID := "T1", filename := "bg.svg", originalName := "bg.svg",
    pageIndex := pg, createdAt := ts }

/-- Fields on pages 0 and 2, backgrounds on pages 1 and 2: the grouping example. -/
def groupingTemplate : Template :=
  { id := "T1", displayName := "Doc", svgBackground := "",
    fields := [sampleField "a" 0, sampleField "b" 2],
    svgFiles := [sampleSVGFile 1 1, sampleSVGFile 2 2] }

/-- A legacy (no page backgrounds) template whose stored background reference
has an unsupported shape. -/
def legacyTemplate : Template :=
  { id := "T2", displayName := "Doc", svgBackground := "bogus",
    fields := [sampleField "name" 0], svgFiles := [] }

/-- A multi-page template whose fields and backgrounds all sit on negative
page indices. -/
def negativePagesTemplate : Template :=
  { id := "T3", displayName := "Doc", svgBackground := "",
    fields := [sampleField "a" (-1)], svgFiles := [sampleSVGFile (-2) 1] }

/-- A minimal renderable multi-page template. -/
def pdfTemplate : Template :=
  { id := "T1", displayName := "Doc", svgBackground := "", fields := [],
    svgFiles := [sampleSVGFile 0 1] }

/-- A stored submission whose ID is shorter than 8 characters. -/
def shortIDSubmission : FormSubmission :=
  { id := "abc", templateID := "T1", formData := [("name", "Bob")],
    formattingData := none, htmlData := [] }

/-- An asset store that always fails. -/
def failingSvc : SvgService := fun _ _ => Except.error "storage unavailable"

end FastFill

deriving instance DecidableEq for Except

namespace FastFill

/-! ### Grouping lemmas -/

/-- The `if x > acc` accumulation never drops below its seed. -/
theorem foldMax_init_le {α : Type} (f : α → Int) (l : List α) (init : Int) :
    init ≤ foldMax f l init := by
  induction l generalizing init with
  | nil => exact le_refl init
  | cons x xs ih =>
    have h1 : init ≤ (if f x > init then f x else init) := by
      split
      · exact le_of_lt (by assumption)
      · exact le_refl init
    exact le_trans h1 (ih _)

/-- The `if x > acc` accumulation dominates every visited value. -/
theorem foldMax_le_of_mem {α : Type} (f : α → Int) {x : α} {l : List α}
    (hx : x ∈ l) (init : Int) : f x ≤ foldMax f l init := by
  induction l generalizing init with
  | nil => cases hx
  | cons y ys ih =>
    rcases List.mem_cons.mp hx with h | h
    · subst h
      have h1 : f x ≤ (if f x > init then f x else init) := by
        split
        · exact le_refl _
        · omega
      exact le_trans h1 (foldMax_init_le f ys _)
    · exact ih h _

/-- The `if x > acc` accumulation is inert when no value exceeds the seed. -/
theorem foldMax_eq_init {α : Type} (f : α → Int) (l : List α) (init : Int)
    (h : ∀ x ∈ l, f x ≤ init) : foldMax f l init = init := by
  induction l with
  | nil => rfl
  | cons y ys ih =>
    have hy : f y ≤ init := h y (List.mem_cons_self y ys)
    have hstep : (if f y > init then f y else init) = init := by
      split
      · omega
      · rfl
    show foldMax f ys (if f y > init then f y else init) = init
    rw [hstep]
    exact ih (fun x hx => h x (List.mem_cons_of_mem y hx))

/-- `maxPage` starts from 0 and never decreases. -/
theorem maxPage_nonneg (t : Template) : 0 ≤ maxPage t :=
  le_trans (foldMax_init_le _ t.fields 0) (foldMax_init_le _ t.svgFiles _)

/-- The loop range covers exactly the integers from 0 to `maxPage`. -/
theorem mem_pageLoop (t : Template) (i : Int) :
    i ∈ pageLoop t ↔ 0 ≤ i ∧ i ≤ maxPage t := by
  have h0 : (0 : Int) ≤ maxPage t := maxPage_nonneg t
  unfold pageLoop
  simp only [List.mem_map, List.mem_range, Int.ofNat_eq_coe]
  constructor
  · rintro ⟨m, hm, rfl⟩
    refine ⟨Int.ofNat_nonneg m, ?_⟩
    have hm' : m ≤ (maxPage t).toNat := Nat.lt_succ_iff.mp hm
    omega
  · rintro ⟨hi0, hile⟩
    refine ⟨i.toNat, ?_, ?_⟩
    · omega
    · omega

/-- The surviving page indices are listed in strictly ascending order. -/
theorem renderedPages_pairwise (t : Template) :
    (renderedPages t).Pairwise (· < ·) := by
  have h1 : (List.range ((maxPage t).toNat + 1)).Pairwise (· < ·) :=
    List.pairwise_lt_range _
  have h2 : (pageLoop t).Pairwise (· < ·) := by
    unfold pageLoop
    exact List.Pairwise.map Int.ofNat (fun a b hab => Int.ofNat_lt.mpr hab) h1
  exact List.Pairwise.sublist (List.filter_sublist _) h2

/-- The running most-recent record is `none` only over an empty record set. -/
theorem mostRecent_eq_none_iff (rs : List SVGFile) :
    mostRecent rs = none ↔ rs = [] := by
  constructor
  · intro h
    cases rs with
    | nil => rfl
    | cons r rest =>
      exfalso
      have : ∀ (l : List SVGFile) (b : SVGFile),
          l.foldl (fun acc r =>
            match acc with
            | none => some r
            | some best => if r.createdAt > best.createdAt then some r else acc)
            (some b) ≠ none := by
        intro l
        induction l with
        | nil => intro b hb; cases hb
        | cons x xs ih =>
          intro b
          show xs.foldl _ (if x.createdAt > b.createdAt then some x else some b) ≠ none
          split
          · exact ih x
          · exact ih b
      exact this rest r h
  · intro h
    subst h
    rfl

end FastFill

namespace FastFill

/-! ### Map lemmas -/

/-- Unfold one association-list lookup step into a propositional `if`. -/
theorem lookup_cons_eq_if {β : Type} (k a : String) (b : β) (tl : List (String × β)) :
    List.lookup k ((a, b) :: tl) = if k = a then some b else List.lookup k tl := by
  by_cases h : k = a
  · subst h
    simp [List.lookup]
  · have hb : (k == a) = false := beq_eq_false_iff_ne.mpr h
    simp [List.lookup, hb, h]

/-- Looking up after a Go map assignment. -/
theorem lookup_mapSet (m : List (String × String)) (k' v k : String) :
    List.lookup k (mapSet m k' v) = if k = k' then some v else List.lookup k m := by
  induction m with
  | nil =>
    show List.lookup k [(k', v)] = _
    rw [lookup_cons_eq_if]
  | cons hd tl ih =>
    obtain ⟨a, b⟩ := hd
    simp only [mapSet]
    by_cases hak : a = k'
    · rw [if_pos hak]
      subst hak
      rw [lookup_cons_eq_if, lookup_cons_eq_if]
      by_cases hk : k = a <;> simp [hk]
    · rw [if_neg hak, lookup_cons_eq_if, lookup_cons_eq_if, ih]
      by_cases hk : k = a
      · have hkk : ¬k = k' := by rw [hk]; exact hak
        simp [hk, hkk, hak]
      · simp [hk]

/-- A key absent from the HTML-flavoured map is untouched by the merge. -/
theorem lookup_mergeData_not_mem (htmlData : List (String × String)) (k : String)
    (h : k ∉ htmlData.map Prod.fst) (data : List (String × String)) :
    List.lookup k (mergeData data htmlData) = List.lookup k data := by
  induction htmlData generalizing data with
  | nil => rfl
  | cons kv rest ih =>
    obtain ⟨a, v⟩ := kv
    simp only [List.map_cons, List.mem_cons] at h
    push_neg at h
    obtain ⟨hka, hkrest⟩ := h
    show List.lookup k (mergeData (if v ≠ "" then mapSet data a v else data) rest) =
      List.lookup k data
    rw [ih hkrest]
    split
    · rw [lookup_mapSet]
      simp [hka]
    · rfl

/-- Looking up in the merged map: a non-empty HTML-flavoured value wins, an
empty or absent one leaves the plain value visible. The HTML map's keys are
distinct, as the keys of any Go map are. -/
theorem mergeData_lookup (htmlData : List (String × String))
    (hnd : (htmlData.map Prod.fst).Nodup) (data : List (String × String)) (k : String) :
    List.lookup k (mergeData data htmlData) =
      match List.lookup k htmlData with
      | some v => if v = "" then List.lookup k data else some v
      | none => List.lookup k data := by
  induction htmlData generalizing data with
  | nil => rfl
  | cons kv rest ih =>
    obtain ⟨a, v⟩ := kv
    simp only [List.map_cons, List.nodup_cons] at hnd
    obtain ⟨ha, hrest⟩ := hnd
    show List.lookup k (mergeData (if v ≠ "" then mapSet data a v else data) rest) = _
    rw [lookup_cons_eq_if]
    by_cases hk : k = a
    · subst hk
      rw [lookup_mergeData_not_mem rest k ha, if_pos rfl]
      by_cases hv : v = ""
      · subst hv
        simp
      · rw [if_pos (show v ≠ "" from hv), lookup_mapSet, if_pos rfl]
        simp [hv]
    · rw [if_neg hk, ih hrest]
      have hdata : List.lookup k (if v ≠ "" then mapSet data a v else data) =
          List.lookup k data := by
        split
        · rw [lookup_mapSet, if_neg hk]
        · rfl
      rw [hdata]

/-! ### Claim theorems -/

/-- C7: for every field whose data key has no entry in the formatting-override
map, or whose entry is malformed (not an attribute bag), the Field-Formatting
Resolver returns the field's stored attributes exactly; a nil override map
likewise. The resolver is pure over a copy, so the stored field is unchanged. -/
theorem c7_formatting_resolver_identity :
    (∀ field : Field, applyOverrides none field = field) ∧
    (∀ (field : Field) (fd : List (String × GoVal)),
      List.lookup field.dataKey fd = none → applyOverrides (some fd) field = field) ∧
    (∀ (field : Field) (fd : List (String × GoVal)) (entry : GoVal),
      List.lookup field.dataKey fd = some entry → (∀ m, entry ≠ GoVal.vmap m) →
      applyOverrides (some fd) field = field) := by
  refine ⟨fun field => rfl, ?_, ?_⟩
  · intro field fd h
    simp only [applyOverrides, h]
  · intro field fd entry h hm
    simp only [applyOverrides, h]
    cases entry with
    | vmap m => exact absurd rfl (hm m)
    | vstr s => rfl
    | vint n => rfl
    | vbool b => rfl
    | vnull => rfl

/-- C7 witness: a concrete field whose override map holds only an unrelated
key, and one whose entry under the field's own key is malformed (not a bag);
both resolve to the stored field unchanged. -/
theorem c7_witness :
    applyOverrides (some [("other", GoVal.vmap [("fontWeight", GoPrim.pstr "bold")])])
      (sampleField "name" 0) = sampleField "name" 0 ∧
    applyOverrides (some [("other", GoVal.vstr "bold"), ("name", GoVal.vint 3)])
      (sampleField "name" 0) = sampleField "name" 0 :=
  ⟨c7_formatting_resolver_identity.2.1 (sampleField "name" 0)
    [("other", GoVal.vmap [("fontWeight", GoPrim.pstr "bold")])] (by decide),
   c7_formatting_resolver_identity.2.2 (sampleField "name" 0)
    [("other", GoVal.vstr "bold"), ("name", GoVal.vint 3)] (GoVal.vint 3)
    (by decide) (fun m h => by cases h)⟩

/-- C1: refuted on the multi-page path. `generatePageHTML` is invariant under
every formatting attribute of the effective field (its per-field style is the
fixed position plus a literal `font-size: 12pt`), and its output for a field
resolved to bold carries a fixed `font-size: 12pt` and no `font-weight`
declaration at all — the resolved formatting is not reflected. -/
theorem c1_generatePageHTML_fixed_style :
    (∀ (svg : String) (d : List (String × String)) (f : Field)
        (fs : Int) (w st td tc ff : String),
      generatePageHTML svg
        [{ f with
            fontSize := fs
            fontWeight := w
            fontStyle := st
            textDecoration := td
            textColor := tc
            fontFamily := ff }] d =
        generatePageHTML svg [f] d) ∧
    (goContains (generatePageHTML ""
        [{ sampleField "name" 0 with fontWeight := "bold" }] [("name", "x")])
      "font-size: 12pt" = true ∧
     goContains (generatePageHTML ""
        [{ sampleField "name" 0 with fontWeight := "bold" }] [("name", "x")])
      "font-weight" = false) := by
  refine ⟨fun svg d f fs w st td tc ff => rfl, by decide, by decide⟩

/-- C2 counterexample: on the multi-page path a value sourced from the plain
value map is emitted verbatim — the markup `<b>x</b>` appears unescaped and
no `&lt;` escape is produced, contradicting the claimed HTML-escaping. -/
theorem c2_counterexample :
    goContains (generatePageHTML "" [sampleField "name" 0] [("name", "<b>x</b>")])
      "<b>x</b>" = true ∧
    goContains (generatePageHTML "" [sampleField "name" 0] [("name", "<b>x</b>")])
      "&lt;" = false := by
  exact ⟨by decide, by decide⟩

/-- C2 amended: the raw-vs-escaped distinction holds only on the legacy
single-page path (a present, non-empty HTML-flavoured value is emitted raw;
otherwise the plain value is emitted HTML-escaped), while on the multi-page
path the merged value is spliced into the field block verbatim, whatever map
it came from. -/
theorem c2_amended_escaping :
    (∀ (data htmlData : List (String × String)) (k v : String),
      List.lookup k htmlData = some v → v ≠ "" →
      legacyFieldValue data htmlData k = v) ∧
    (∀ (data htmlData : List (String × String)) (k w : String),
      (List.lookup k htmlData = none ∨ List.lookup k htmlData = some "") →
      List.lookup k data = some w →
      legacyFieldValue data htmlData k = htmlEscape w) ∧
    (∀ (svg : String) (f : Field) (d : List (String × String)) (v : String),
      List.lookup f.dataKey d = some v →
      generatePageHTML svg [f] d =
        "    <div class=\"page\" style=\"" ++
        (if svg ≠ "" then "background-image: url(\x27" ++ svg ++ "\x27);" else "") ++
        "\">\n" ++
        ("\n        <div class=\"field\" style=\"\n            top: " ++
          toString f.positionTop ++ "px;\n            left: " ++
          toString f.positionLeft ++ "px;\n            width: " ++
          toString f.positionWidth ++ "px;\n            height: " ++
          toString f.positionHeight ++
          "px;\n            font-size: 12pt;\n        \">\n            <div class=\"field-text\">" ++
          v ++ "</div>\n        </div>") ++ "\n    </div>") := by
  refine ⟨?_, ?_, ?_⟩
  · intro data htmlData k v h hv
    simp only [legacyFieldValue, h]
    rw [if_pos hv]
  · intro data htmlData k w hh hw
    rcases hh with h | h
    · simp only [legacyFieldValue, h, hw]
    · simp only [legacyFieldValue, h, hw]
      simp
  · intro svg f d v h
    simp only [generatePageHTML, List.map_cons, List.map_nil, h, Option.getD_some]
    rfl

/-- C2 amended witness: a non-empty HTML-flavoured value is emitted raw on
the legacy path, a plain value with no HTML counterpart is emitted escaped,
and a multi-page field block splices its looked-up value verbatim. -/
theorem c2_amended_witness :
    legacyFieldValue [] [("k", "<b>")] "k" = "<b>" ∧
    legacyFieldValue [("k", "<i>")] [] "k" = "&lt;i&gt;" ∧
    generatePageHTML "" [sampleField "name" 0] [("name", "v")] =
      "    <div class=\"page\" style=\"" ++
      (if ("" : String) ≠ "" then "background-image: url(\x27" ++ "" ++ "\x27);" else "") ++
      "\">\n" ++
      ("\n        <div class=\"field\" style=\"\n            top: " ++
        toString (sampleField "name" 0).positionTop ++ "px;\n            left: " ++
        toString (sampleField "name" 0).positionLeft ++ "px;\n            width: " ++
        toString (sampleField "name" 0).positionWidth ++ "px;\n            height: " ++
        toString (sampleField "name" 0).positionHeight ++
        "px;\n            font-size: 12pt;\n        \">\n            <div class=\"field-text\">" ++
        "v" ++ "</div>\n        </div>") ++ "\n    </div>" :=
  ⟨c2_amended_escaping.1 [] [("k", "<b>")] "k" "<b>" (by decide) (by decide),
   c2_amended_escaping.2.1 [("k", "<i>")] [] "k" "<i>" (Or.inl (by decide)) (by decide),
   c2_amended_escaping.2.2 "" (sampleField "name" 0) [("name", "v")] "v" (by decide)⟩

/-- C3 counterexample: on the legacy single-page path a background-resolution
failure is fatal — `generateHTML` aborts with an error instead of rendering
the page with a blank background. -/
theorem c3_counterexample :
    generateHTML failingSvc legacyTemplate [] none [] =
      Except.error
        "failed to convert SVG to data URI: unsupported SVG URL format: bogus" := by
  decide

/-- C3 amended: background-resolution failure is tolerated only in multi-page
mode — with a failing asset store every renderable page still renders, with
an empty background, and generation succeeds; on the legacy single-page path
a `convertToDataURI` failure aborts `generateHTML` with an error. -/
theorem c3_amended_partial_failure :
    (∀ (t : Template) (d h' : List (String × String))
        (fm : Option (List (String × GoVal))) (e : String),
      renderedPages t ≠ [] →
      generateMultiPageHTML (fun _ _ => Except.error e) t d fm h' =
        Except.ok (multiPageWrapper (String.intercalate "\n"
          ((renderedPages t).map (fun i =>
            generatePageHTML "" ((fieldsAt t i).map (applyOverrides fm))
              (mergeData d h')))))) ∧
    (∀ (svc : SvgService) (t : Template) (d h' : List (String × String))
        (fm : Option (List (String × GoVal))) (e : String),
      t.svgFiles = [] →
      convertToDataURI svc t.svgBackground = Except.error e →
      generateHTML svc t d fm h' =
        Except.error ("failed to convert SVG to data URI: " ++ e)) := by
  constructor
  · intro t d h' fm e hne
    unfold generateMultiPageHTML
    have hpages : (renderedPages t).map (renderPage (fun _ _ => Except.error e) t d fm h') =
        (renderedPages t).map (fun i =>
          generatePageHTML "" ((fieldsAt t i).map (applyOverrides fm)) (mergeData d h')) := by
      apply List.map_congr_left
      intro i _
      simp [renderPage]
    rw [hpages, if_neg]
    simp only [List.isEmpty_iff, List.map_eq_nil_iff]
    exact hne
  · intro svc t d h' fm e ht hconv
    unfold generateHTML
    rw [ht]
    simp only [List.length_nil, gt_iff_lt, lt_self_iff_false, if_false]
    rw [hconv]

/-- C3 amended witness: the grouping example template, rendered against an
asset store that always fails, still produces its three pages. -/
theorem c3_amended_witness :
    (generateMultiPageHTML (fun _ _ => Except.error "boom") groupingTemplate [] none [] =
      Except.ok (multiPageWrapper (String.intercalate "\n"
        ((renderedPages groupingTemplate).map (fun i =>
          generatePageHTML "" ((fieldsAt groupingTemplate i).map (applyOverrides none))
            (mergeData [] [])))))) ∧
    generateHTML failingSvc legacyTemplate [("name", "Bob")] none [] =
      Except.error ("failed to convert SVG to data URI: " ++
        "unsupported SVG URL format: bogus") :=
  ⟨c3_amended_partial_failure.1 groupingTemplate [] [] none "boom" (by decide),
   c3_amended_partial_failure.2 failingSvc legacyTemplate [("name", "Bob")] [] none
     "unsupported SVG URL format: bogus" rfl (by decide)⟩

/-- C4: the emitted page indices are exactly the integers between 0 and
`maxPage` that carry a background or at least one field, in strictly
ascending order; `maxPage` dominates every page index appearing among the
fields and backgrounds; and the {0,2}-fields/{1,2}-backgrounds example
yields exactly pages [0, 1, 2]. -/
theorem c4_page_grouping :
    (∀ (t : Template) (i : Int),
      i ∈ renderedPages t ↔
        0 ≤ i ∧ i ≤ maxPage t ∧ ((svgAt t i).isSome = true ∨ fieldsAt t i ≠ [])) ∧
    (∀ t : Template, (renderedPages t).Pairwise (· < ·)) ∧
    (∀ t : Template,
      (∀ f ∈ t.fields, f.pageIndex ≤ maxPage t) ∧
      (∀ s ∈ t.svgFiles, s.pageIndex ≤ maxPage t)) ∧
    renderedPages groupingTemplate = [0, 1, 2] := by
  refine ⟨?_, renderedPages_pairwise, ?_, by decide⟩
  · intro t i
    unfold renderedPages
    rw [List.mem_filter, mem_pageLoop]
    constructor
    · rintro ⟨⟨h0, hle⟩, hp⟩
      refine ⟨h0, hle, ?_⟩
      simpa [List.isEmpty_iff] using hp
    · rintro ⟨h0, hle, hor⟩
      refine ⟨⟨h0, hle⟩, ?_⟩
      simpa [List.isEmpty_iff] using hor
  · intro t
    constructor
    · intro f hf
      exact le_trans (foldMax_le_of_mem _ hf 0) (foldMax_init_le _ t.svgFiles _)
    · intro s hs
      exact foldMax_le_of_mem _ hs _

/-- C5: the merged value map starts from the plain values and overwrites, at
every key of the HTML-flavoured map holding a non-empty value, with the HTML
value — an empty HTML value leaves the plain value in place — and on the
plain/HTML `Alice` example the composed page fragment contains the raw,
unescaped `<b>Alice</b>`. -/
theorem c5_merge_precedence :
    (∀ (data htmlData : List (String × String)) (k : String),
      (htmlData.map Prod.fst).Nodup →
      List.lookup k (mergeData data htmlData) =
        match List.lookup k htmlData with
        | some v => if v = "" then List.lookup k data else some v
        | none => List.lookup k data) ∧
    goContains (generatePageHTML "" [sampleField "name" 0]
      (mergeData [("name", "Alice")] [("name", "<b>Alice</b>")])) "<b>Alice</b>" = true := by
  exact ⟨fun data htmlData k hnd => mergeData_lookup htmlData hnd data k, by decide⟩

/-- C4 witness: the grouping example's first field lies within the computed
page range. -/
theorem c4_witness :
    (sampleField "a" 0).pageIndex ≤ maxPage groupingTemplate ∧
    (0 : Int) ∈ renderedPages groupingTemplate :=
  ⟨(c4_page_grouping.2.2.1 groupingTemplate).1 (sampleField "a" 0) (by decide),
   (c4_page_grouping.1 groupingTemplate 0).mpr ⟨by decide, by decide, Or.inr (by decide)⟩⟩

/-- C5 witness: the HTML-flavoured `Alice` value wins the merge. -/
theorem c5_witness :
    List.lookup "name" (mergeData [("name", "Alice")] [("name", "<b>Alice</b>")]) =
      some "<b>Alice</b>" := by
  rw [c5_merge_precedence.1 [("name", "Alice")] [("name", "<b>Alice</b>")] "name" (by decide)]
  decide

/-- C6 counterexample: the empty reference satisfies every precondition of the
claim (no embedded-data prefix, neither path marker) yet `convertToDataURI`
returns an empty data URI successfully instead of the unsupported-format
error. -/
theorem c6_counterexample :
    (goHasPrefix "" "data:" = false ∧ goContains "" "/api/files/svg/" = false ∧
      goContains "" "templates/" = false) ∧
    convertToDataURI failingSvc "" = Except.ok "" := by
  exact ⟨by decide, by decide⟩

/-- C6 amended: every NON-EMPTY reference that does not start with the
embedded-data scheme and contains neither the current-API marker nor the
legacy marker fails with the unsupported-reference-format error; the empty
string instead short-circuits to an empty data URI with no error. -/
theorem c6_amended_unsupported :
    ∀ (svc : SvgService) (url : String),
      url ≠ "" → goHasPrefix url "data:" = false →
      goContains url "/api/files/svg/" = false → goContains url "templates/" = false →
      convertToDataURI svc url =
        Except.error ("unsupported SVG URL format: " ++ url) := by
  intro svc url h0 h1 h2 h3
  unfold convertToDataURI
  rw [if_neg h0]
  simp [h1, h2, h3]

/-- C6 amended witness: a bare word reference is rejected as unsupported. -/
theorem c6_amended_witness :
    convertToDataURI failingSvc "bogus" =
      Except.error "unsupported SVG URL format: bogus" :=
  c6_amended_unsupported failingSvc "bogus" (by decide) (by decide) (by decide) (by decide)

/-- C8: a `page_N` identifier whose page has no stored record for the
template (or whose `N` does not parse as an integer) does not fail: the
lookup falls back to the template's most recently created record regardless
of page, and the not-found error occurs exactly when the template has no
stored records at all. -/
theorem c8_page_identifier_fallback :
    ∀ (db : List SVGFile) (tid svgID : String),
      goHasPrefix svgID "page_" = true →
      (∀ n, goAtoi (goTrimPrefix svgID "page_") = some n →
        db.filter (fun r => r.templateID == tid && r.pageIndex == n) = []) →
      (GetSVGContent db tid svgID =
        match mostRecent (db.filter (fun r => r.templateID == tid)) with
        | some r => Except.ok r
        | none => Except.error ("SVG file not found for template " ++ tid)) ∧
      ((∃ e, GetSVGContent db tid svgID = Except.error e) ↔
        db.filter (fun r => r.templateID == tid) = []) := by
  intro db tid svgID hp hnone
  have hmain : GetSVGContent db tid svgID =
      match mostRecent (db.filter (fun r => r.templateID == tid)) with
      | some r => Except.ok r
      | none => Except.error ("SVG file not found for template " ++ tid) := by
    unfold GetSVGContent GetSVGFile
    rw [hp]
    cases hA : goAtoi (goTrimPrefix svgID "page_") with
    | none => simp [hp]
    | some n => simp [hp, hnone n hA]
  refine ⟨hmain, ?_⟩
  rw [hmain]
  cases hmr : mostRecent (db.filter (fun r => r.templateID == tid)) with
  | none =>
    simp only [hmr]
    constructor
    · intro _
      exact (mostRecent_eq_none_iff _).mp hmr
    · intro _
      exact ⟨"SVG file not found for template " ++ tid, rfl⟩
  | some r =>
    simp only [hmr]
    constructor
    · rintro ⟨e, he⟩
      cases he
    · intro hfil
      rw [hfil] at hmr
      cases hmr

/-- C8 witness: with one stored record on page 0, asking for `page_7` falls
back to that record instead of failing. -/
theorem c8_witness :
    GetSVGContent [sampleSVGFile 0 5] "T1" "page_7" = Except.ok (sampleSVGFile 0 5) := by
  rw [(c8_page_identifier_fallback [sampleSVGFile 0 5] "T1" "page_7" (by decide)
    (fun n hn => by
      have h7 : goAtoi (goTrimPrefix "page_7" "page_") = some 7 := by decide
      rw [h7] at hn
      have hn7 : (7 : Int) = n := by injection hn
      subst hn7
      decide)).1]
  decide

/-- C9: a field or background with a negative page index is never rendered
(every emitted page index is nonnegative), and a multi-page template all of
whose fields and backgrounds carry negative page indices yields zero pages
and fails with the no-renderable-pages error. -/
theorem c9_negative_page_indices :
    (∀ (t : Template) (i : Int), i ∈ renderedPages t → 0 ≤ i) ∧
    (∀ (svc : SvgService) (t : Template) (d h' : List (String × String))
        (fm : Option (List (String × GoVal))),
      t.svgFiles ≠ [] →
      (∀ f ∈ t.fields, f.pageIndex < 0) →
      (∀ s ∈ t.svgFiles, s.pageIndex < 0) →
      generateMultiPageHTML svc t d fm h' =
        Except.error "no pages with SVG files or fields found") := by
  constructor
  · intro t i hi
    have := (mem_pageLoop t i).mp (List.mem_of_mem_filter hi)
    exact this.1
  · intro svc t d h' fm hsvg hf hs
    have hmax : maxPage t = 0 := by
      unfold maxPage
      rw [foldMax_eq_init _ t.fields 0 (fun f hf' => le_of_lt (hf f hf'))]
      exact foldMax_eq_init _ t.svgFiles 0 (fun s hs' => le_of_lt (hs s hs'))
    have hfields0 : fieldsAt t 0 = [] := by
      unfold fieldsAt
      rw [List.filter_eq_nil_iff]
      intro f hf'
      have := hf f hf'
      simp only [beq_iff_eq]
      omega
    have hsvg0 : svgAt t 0 = none := by
      unfold svgAt
      have : t.svgFiles.filter (fun s => s.pageIndex == (0 : Int)) = [] := by
        rw [List.filter_eq_nil_iff]
        intro s hs'
        have := hs s hs'
        simp only [beq_iff_eq]
        omega
      rw [this]
      rfl
    have hrp : renderedPages t = [] := by
      unfold renderedPages pageLoop
      rw [hmax]
      show List.filter _ [(0 : Int)] = []
      rw [List.filter_cons]
      rw [hsvg0, hfields0]
      simp
    unfold generateMultiPageHTML
    rw [hrp]
    rfl

/-- C9 witness: a template with one field on page -1 and one background on
page -2 renders no pages and errors out. -/
theorem c9_witness :
    (0 : Int) ≤ 0 ∧
    generateMultiPageHTML failingSvc negativePagesTemplate [] none [] =
      Except.error "no pages with SVG files or fields found" :=
  ⟨c9_negative_page_indices.1 groupingTemplate 0 (by decide),
   c9_negative_page_indices.2 failingSvc negativePagesTemplate [] [] none
     (by decide) (by decide) (by decide)⟩

/-- C10: when a stored submission is fetched successfully, its template
resolves, and HTML and PDF generation succeed, a submission ID shorter than
8 characters makes the handler panic at the unguarded `submissionID[:8]`
slice while building the download filename. -/
theorem c10_short_submission_id_panics :
    ∀ (getSubmission : String → Except String (Option FormSubmission))
      (getTemplate : String → Except String (Option Template))
      (svc : SvgService) (htmlToPDF : String → Except String (List Nat))
      (sid : String) (sub : FormSubmission) (t : Template) (html : String)
      (bytes : List Nat),
      getSubmission sid = Except.ok (some sub) →
      getTemplate sub.templateID = Except.ok (some t) →
      generateHTML svc t sub.formData sub.formattingData sub.htmlData = Except.ok html →
      htmlToPDF html = Except.ok bytes →
      goLen sid < 8 →
      GeneratePDFFromSubmission getSubmission getTemplate svc htmlToPDF sid =
        HTTPOutcome.panicked := by
  intro getSubmission getTemplate svc htmlToPDF sid sub t html bytes h1 h2 h3 h4 h5
  unfold GeneratePDFFromSubmission
  simp only [h1, h2, h3, h4]
  rw [if_pos h5]

/-- C10 witness: a concrete 3-character submission ID, with stores and a
browser that succeed, reaches the filename slice and panics. -/
theorem c10_witness :
    GeneratePDFFromSubmission (fun _ => Except.ok (some shortIDSubmission))
      (fun _ => Except.ok (some pdfTemplate)) failingSvc
      (fun _ => Except.ok [37, 80, 68, 70]) "abc" = HTTPOutcome.panicked := by
  cases hh : generateHTML failingSvc pdfTemplate shortIDSubmission.formData
      shortIDSubmission.formattingData shortIDSubmission.htmlData with
  | error e =>
    exfalso
    have hok : (generateHTML failingSvc pdfTemplate shortIDSubmission.formData
        shortIDSubmission.formattingData shortIDSubmission.htmlData).isOk = true := by
      decide
    rw [hh] at hok
    cases hok
  | ok html =>
    exact c10_short_submission_id_panics (fun _ => Except.ok (some shortIDSubmission))
      (fun _ => Except.ok (some pdfTemplate)) failingSvc
      (fun _ => Except.ok [37, 80, 68, 70]) "abc" shortIDSubmission pdfTemplate html
      [37, 80, 68, 70] rfl rfl hh rfl (by decide)

end FastFill
